import Mathlib

/-!
# I-care upload page: submit handler, result renderer and error display

A shallow embedding of `static/js/script.js`.  The page is a record of the DOM
properties the script reads and writes, a millisecond clock and the queue of
pending `setTimeout` callbacks.  Functions of the script become state
transformers; a JavaScript exception is an explicit `Completion.thrown` that
carries the page as it was when the exception was raised.

The ECMAScript built-ins that work on IEEE-754 numbers and on Unicode text
(`parseFloat`, `Number::toString`, `ToBoolean` on numbers,
`String.prototype.toUpperCase`) are not code of the script; they are taken as a
parameter `Runtime N`, so every theorem holds for any implementation of them.
The markup assigned to `innerHTML` is read by the tokenizer of the HTML parser,
modelled here on the part of HTML that the script's template uses.
-/

namespace ICare

/-! ## Values -/

/-- A user-chosen image file held by a file input. -/
structure File where
  name : String
  bytes : List Nat
deriving DecidableEq, Repr

/-- A JavaScript value as produced by `response.json()` and by property reads on
such a value.  `N` is the type of Number values.  An object is its list of own
properties; a read takes the first entry with the given key. -/
inductive JSVal (N : Type) where
  | undefined : JSVal N
  | null : JSVal N
  | bool (b : Bool) : JSVal N
  | num (n : N) : JSVal N
  | str (s : String) : JSVal N
  | arr (items : List (JSVal N)) : JSVal N
  | obj (props : List (String × JSVal N)) : JSVal N

/-- The built-ins of the host that the script calls on numbers and text. -/
structure Runtime (N : Type) where
  /-- The numbers that `ToBoolean` sends to `false`: `+0`, `-0` and `NaN`. -/
  numFalsy : N → Bool
  /-- The text of a number, `Number::toString`, as used by a template literal. -/
  numToString : N → String
  /-- The global `parseFloat`, applied to its argument already converted to text. -/
  parseFloat : String → N
  /-- The method `String.prototype.toUpperCase`. -/
  toUpperCase : String → String

variable {N : Type}

/-- Whether an object has an own property `toString`.  No value that comes out
of `response.json()` is callable, so such a property hides
`Object.prototype.toString` behind something that cannot be called. -/
def hidesToString (props : List (String × JSVal N)) : Bool :=
  props.any (fun kv => kv.1 == "toString")

mutual
/-- The abstract operation `ToString` on the values above; `none` is the
`TypeError` it raises.  An object without an own `toString` is converted by
`Object.prototype.toString`.  An object with one has no callable `toString`, and
its `valueOf`, own or inherited, gives no primitive, so the conversion raises.
An array is converted by `Array.prototype.join` with a comma. -/
def JSVal.toStr (rt : Runtime N) : JSVal N → Option String
  | .undefined => some "undefined"
  | .null => some "null"
  | .bool true => some "true"
  | .bool false => some "false"
  | .num n => some (rt.numToString n)
  | .str s => some s
  | .arr items => joinItems rt "," items
  | .obj props => if hidesToString props then none else some "[object Object]"
/-- The method `Array.prototype.join`: the texts of the elements, `undefined` and
`null` giving the empty text, with `sep` between neighbours; it raises when the
conversion of an element raises. -/
def joinItems (rt : Runtime N) (sep : String) : List (JSVal N) → Option String
  | [] => some ""
  | .undefined :: rest => joinRest rt sep rest
  | .null :: rest => joinRest rt sep rest
  | v :: rest =>
    match JSVal.toStr rt v with
    | none => none
    | some t =>
      match joinRest rt sep rest with
      | none => none
      | some r => some (t ++ r)
/-- The part of a join that follows the first element. -/
def joinRest (rt : Runtime N) (sep : String) : List (JSVal N) → Option String
  | [] => some ""
  | .undefined :: rest =>
    match joinRest rt sep rest with
    | none => none
    | some r => some (sep ++ r)
  | .null :: rest =>
    match joinRest rt sep rest with
    | none => none
    | some r => some (sep ++ r)
  | v :: rest =>
    match JSVal.toStr rt v with
    | none => none
    | some t =>
      match joinRest rt sep rest with
      | none => none
      | some r => some (sep ++ t ++ r)
end

/-- The abstract operation `ToBoolean`, applied by `if (...)` and by `!`. -/
def JSVal.truthy (rt : Runtime N) : JSVal N → Bool
  | .undefined => false
  | .null => false
  | .bool b => b
  | .num n => !rt.numFalsy n
  | .str s => s != ""
  | .arr _ => true
  | .obj _ => true

/-- A property read `v.key` for the keys the script uses (`error`, `prediction`,
`confidence`, `used_models`, `explanation`, `image_urls`, `oct`, `fundus`).
`none` is the `TypeError` raised by a read on `undefined` or `null`; an object
gives its own property or `undefined`; every other value has no property of
these names and gives `undefined`. -/
def JSVal.getProp (v : JSVal N) (key : String) : Option (JSVal N) :=
  match v with
  | .undefined => none
  | .null => none
  | .obj props => some ((props.lookup key).getD .undefined)
  | _ => some .undefined

/-- Strict equality `v === lit` against a string literal. -/
def JSVal.strictEqStr (v : JSVal N) (lit : String) : Bool :=
  match v with
  | .str s => s == lit
  | _ => false

/-- The text stored by the setter of `textContent`: `undefined` and `null` are
stored as the empty text, every other value as its `ToString`; `none` when that
conversion raises. -/
def domText (rt : Runtime N) : JSVal N → Option String
  | .undefined => some ""
  | .null => some ""
  | v => v.toStr rt

/-! ## Page state -/

/-- A pending `setTimeout` callback.  The script passes one callback only,
`() => errorMessage.textContent = ''`, so a timer is its due time. -/
structure Timer where
  due : Nat
deriving DecidableEq, Repr

/-- The page as the script sees it: the clock in milliseconds, the pending
timers in the order they were scheduled, the two file inputs (`files[0]`, absent
when no file is selected) and the DOM properties the script assigns, each
holding the text last assigned to it.  What the style engine makes of a text
assigned to `style.display` or `style.width` is outside the script. -/
structure Page where
  now : Nat
  timers : List Timer
  octFile : Option File
  fundusFile : Option File
  errorText : String
  resultDisplay : String
  predictionHTML : String
  confidenceWidth : String
  modelInfoText : String
  explanationText : String
  octPreviewHTML : String
  fundusPreviewHTML : String
deriving DecidableEq, Repr

/-- The callback of every timer: `errorMessage.textContent = ''`. -/
def runTimer (s : Page) (_t : Timer) : Page :=
  { s with errorText := "" }

/-- The passage of `d` milliseconds with no script code running other than
timer callbacks: the clock advances and every timer that has come due fires, in
scheduling order, and leaves the queue. -/
def elapse (d : Nat) (s : Page) : Page :=
  let t := s.now + d
  let fired := s.timers.filter (fun x => decide (x.due ≤ t))
  let waiting := s.timers.filter (fun x => decide (t < x.due))
  fired.foldl runTimer { s with now := t, timers := waiting }

/-- How a piece of script code ends: normally, or by a thrown exception. -/
inductive Completion where
  | normal
  | thrown
deriving DecidableEq, Repr

/-- The function `showError`: store the message, then schedule a clear 5000 ms
later.  When the conversion of the message to text raises, the function ends
there and schedules nothing. -/
def showError (rt : Runtime N) (message : JSVal N) (s : Page) : Completion × Page :=
  -- errorMessage.textContent = message;
  match domText rt message with
  | none => (.thrown, s)
  | some text =>
    let s := { s with errorText := text }
    -- setTimeout(() => errorMessage.textContent = '', 5000);
    (.normal, { s with timers := s.timers ++ [⟨s.now + 5000⟩] })

/-! ## Result renderer -/

/-- The template literal assigned to `octPreview.innerHTML`. -/
def octMarkup (url : String) : String :=
  "<div class=\"image-preview\">" ++
  "\n                    <img src=\"" ++ url ++ "\" alt=\"OCT Scan\">" ++
  "\n                </div>"

/-- The template literal assigned to `fundusPreview.innerHTML`. -/
def fundusMarkup (url : String) : String :=
  "<div class=\"image-preview\">" ++
  "\n                    <img src=\"" ++ url ++ "\" alt=\"Fundus Image\">" ++
  "\n                </div>"

/-- The last statement of `displayResults`:
`if (data.image_urls.fundus) { fundusPreview.innerHTML = ... }`.  The read of
`fundus` raises when `image_urls` is missing, the template literal when the URL
cannot be converted to text. -/
def showFundusPreview (rt : Runtime N) (data : JSVal N) (s : Page) : Completion × Page :=
  match (data.getProp "image_urls").bind (fun urls => urls.getProp "fundus") with
  | none => (.thrown, s)
  | some fundus =>
    if fundus.truthy rt then
      match fundus.toStr rt with
      | none => (.thrown, s)
      | some url => (.normal, { s with fundusPreviewHTML := fundusMarkup url })
    else (.normal, s)

/-- The statement `if (data.image_urls.oct) { octPreview.innerHTML = ... }` of
`displayResults`, followed by the statement for the fundus image. -/
def showOctPreview (rt : Runtime N) (data : JSVal N) (s : Page) : Completion × Page :=
  match (data.getProp "image_urls").bind (fun urls => urls.getProp "oct") with
  | none => (.thrown, s)
  | some oct =>
    if oct.truthy rt then
      match oct.toStr rt with
      | none => (.thrown, s)
      | some url => showFundusPreview rt data { s with octPreviewHTML := octMarkup url }
    else showFundusPreview rt data s

/-- The function `displayResults`, statement by statement.  A statement that
raises a `TypeError` ends the function with `Completion.thrown` and the page as
the statements before it left it. -/
def displayResults (rt : Runtime N) (data : JSVal N) (s : Page) : Completion × Page :=
  -- resultContainer.style.display = 'block';
  let s := { s with resultDisplay := "block" }
  -- const isNormal = data.prediction === 'normal';
  match data.getProp "prediction" with
  | none => (.thrown, s)
  | some prediction =>
  let isNormal := prediction.strictEqStr "normal"
  -- const confidence = parseFloat(data.confidence);
  -- parseFloat converts its argument to text first, which may raise
  match (data.getProp "confidence").bind (fun c => c.toStr rt) with
  | none => (.thrown, s)
  | some confidenceText =>
  let confidence := rt.parseFloat confidenceText
  -- predictionResult.innerHTML = ...; the call data.prediction.toUpperCase()
  -- raises unless the prediction is a string
  match prediction with
  | .str p =>
    let s := { s with
      predictionHTML :=
        "\n                <div class=\"prediction-badge " ++
          (if isNormal then "badge-normal" else "badge-disease") ++ "\">" ++
        "\n                    " ++ rt.toUpperCase p ++ " " ++
          (if !isNormal then "Detected" else "") ++
        "\n                </div>" ++
        "\n                <h2>" ++ (if isNormal then "No Issues Found" else p) ++ "</h2>" ++
        "\n            " }
    -- confidenceBar.style.width = ...;
    let s := { s with confidenceWidth := rt.numToString confidence ++ "%" }
    -- modelInfo.textContent = ...; the call data.used_models.join(' + ')
    -- raises unless used_models is an array, and when an element cannot be
    -- converted to text
    match data.getProp "used_models" with
    | some (.arr models) =>
      match joinItems rt " + " models with
      | none => (.thrown, s)
      | some joined =>
      let s := { s with modelInfoText := "Analysis based on: " ++ joined ++ " model(s)" }
      -- diseaseExplanation.textContent = data.explanation;
      match (data.getProp "explanation").bind (fun e => domText rt e) with
      | none => (.thrown, s)
      | some explanation =>
      let s := { s with explanationText := explanation }
      -- the two statements that show the echoed images
      showOctPreview rt data s
    | _ => (.thrown, s)
  | _ => (.thrown, s)

/-! ## Submission handler -/

/-- A call of `fetch`: the address, the method and the entries of the
multipart body in the order they were appended. -/
structure Request where
  url : String
  method : String
  body : List (String × File)
deriving DecidableEq, Repr

/-- What the network gives back for the request: `fetch` rejects, or it resolves
and `response.json()` rejects, or the body parses to a value. -/
inductive Reply (N : Type) where
  | networkFailure : Reply N
  | unparsable : Reply N
  | json (data : JSVal N) : Reply N

/-- One round trip as the handler observes it: the time spent at each of the two
`await`s and the reply. -/
structure Exchange (N : Type) where
  fetchLatency : Nat
  bodyLatency : Nat
  reply : Reply N

/-- The record of one run of a piece of the handler: the page it leaves, the
requests it issued, how many times it called `displayResults`, and how it ended. -/
structure Run where
  page : Page
  requests : List Request
  renders : Nat
  completion : Completion
deriving DecidableEq, Repr

/-- The body of the `try` block of the handler.  Time passes at each `await`. -/
def tryBlock (rt : Runtime N) (x : Exchange N) (request : Request) (s : Page) : Run :=
  -- const response = await fetch('/predict', { method: 'POST', body: formData });
  let s := elapse x.fetchLatency s
  match x.reply with
  | .networkFailure => ⟨s, [request], 0, .thrown⟩
  | .unparsable =>
    -- const data = await response.json();
    ⟨elapse x.bodyLatency s, [request], 0, .thrown⟩
  | .json data =>
    let s := elapse x.bodyLatency s
    -- if (data.error) { showError(data.error); return; }
    match data.getProp "error" with
    | none => ⟨s, [request], 0, .thrown⟩
    | some err =>
      if err.truthy rt then
        let r := showError rt err s
        ⟨r.2, [request], 0, r.1⟩
      else
        -- displayResults(data);
        let r := displayResults rt data s
        ⟨r.2, [request], 1, r.1⟩

/-- The listener of the form's `submit` event, run with no other event of the
page interleaved.  `x` is what the network does with the request, if one is
issued. -/
def submitHandler (rt : Runtime N) (x : Exchange N) (s : Page) : Run :=
  -- errorMessage.textContent = ''; resultContainer.style.display = 'none';
  let s := { s with errorText := "" }
  let s := { s with resultDisplay := "none" }
  let formData : List (String × File) := []
  let octFile := s.octFile
  let fundusFile := s.fundusFile
  -- if (!octFile && !fundusFile) { showError(...); return; }
  if octFile.isNone && fundusFile.isNone then
    let r := showError rt (.str "Please upload at least one image") s
    ⟨r.2, [], 0, r.1⟩
  else
    -- if (octFile) formData.append('oct_file', octFile);
    let formData := match octFile with
      | some f => formData ++ [("oct_file", f)]
      | none => formData
    -- if (fundusFile) formData.append('fundus_file', fundusFile);
    let formData := match fundusFile with
      | some f => formData ++ [("fundus_file", f)]
      | none => formData
    let r := tryBlock rt x ⟨"/predict", "POST", formData⟩ s
    match r.completion with
    | .normal => r
    | .thrown =>
      -- catch (err) { showError('An error occurred during analysis. Please try again.'); }
      let e := showError rt (.str "An error occurred during analysis. Please try again.") r.page
      { r with page := e.2, completion := e.1 }

/-- Two errors in a row: `showError(m1)`, then `d` milliseconds with nothing but
timers, then `showError(m2)`. -/
def twoErrors (rt : Runtime N) (m1 m2 : JSVal N) (d : Nat) (s : Page) : Page :=
  (showError rt m2 (elapse d (showError rt m1 s).2)).2

/-! ## Reading the assigned markup

The setter of `innerHTML` hands the text to the HTML parser.  Its tokenizer is
modelled as the state machine of the HTML standard, cut down to what the
template of `displayResults` is made of: character data, start tags with
double-quoted attributes and end tags.  On anything else (a character
reference, a comment, a self-closing tag, an element whose content is not
tokenized as data) the model gives no answer.  The element `predictionResult`
is taken to be an ordinary container, whose content the parser starts to read in
the data state. -/

/-- What the tokenizer emits: a run of characters, a start tag, an end tag. -/
inductive Token where
  | text (chars : String)
  | startTag (name : String) (attrs : List (String × String))
  | endTag (name : String)
deriving DecidableEq, Repr

/-- The states of the tokenizer, each with what it has gathered so far. -/
inductive LexState where
  | data (run : List Char)
  | tagOpen
  | endTagOpen
  | tagName (closing : Bool) (name : List Char)
  | beforeAttrName (name : List Char) (attrs : List (String × String))
  | attrName (name : List Char) (attrs : List (String × String)) (key : List Char)
  | beforeAttrValue (name : List Char) (attrs : List (String × String)) (key : List Char)
  | attrValue (name : List Char) (attrs : List (String × String)) (key value : List Char)
  | afterAttrValue (name : List Char) (attrs : List (String × String))
deriving DecidableEq, Repr

/-- The tokenizer at work: the tokens emitted and the current state. -/
structure Lexer where
  tokens : List Token
  state : LexState
deriving DecidableEq, Repr

/-- A character that the data state passes on as it is: not `<` (a tag opens),
not `&` (a character reference), not NUL (dropped by the parser) and not a
carriage return (turned into a line feed before tokenizing). -/
def plainChar (c : Char) : Bool :=
  c != '<' && c != '&' && c != Char.ofNat 0 && c != Char.ofNat 13

/-- A text made of plain characters. -/
def plainText (t : String) : Bool :=
  t.data.all plainChar

/-- The white space of HTML inside a tag: tab, line feed, form feed, space. -/
def tagSpace (c : Char) : Bool :=
  c == Char.ofNat 9 || c == Char.ofNat 10 || c == Char.ofNat 12 || c == ' '

/-- The elements whose content the tokenizer does not read as data. -/
def rawTextElements : List String :=
  ["script", "style", "textarea", "title", "xmp", "iframe", "noembed", "noframes",
    "noscript", "plaintext"]

/-- The tokens with the pending run of characters, if any, added as a text. -/
def flushText (tokens : List Token) (run : List Char) : List Token :=
  match run with
  | [] => tokens
  | c :: cs => tokens ++ [.text (String.mk (c :: cs))]

/-- The end of a tag: the tag is emitted and the tokenizer is back in the data
state. -/
def closeTag (tokens : List Token) (closing : Bool) (name : List Char)
    (attrs : List (String × String)) : Option Lexer :=
  if closing then some ⟨tokens ++ [.endTag (String.mk name)], .data []⟩
  else if rawTextElements.contains (String.mk name) then none
  else some ⟨tokens ++ [.startTag (String.mk name) attrs], .data []⟩

/-- One character through the tokenizer; `none` outside the modelled part. -/
def lexStep (lx : Lexer) (c : Char) : Option Lexer :=
  match lx.state with
  | .data run =>
    if c = '<' then some ⟨flushText lx.tokens run, .tagOpen⟩
    else if plainChar c then some ⟨lx.tokens, .data (run ++ [c])⟩
    else none
  | .tagOpen =>
    if c = '/' then some ⟨lx.tokens, .endTagOpen⟩
    else if c.isAlpha then some ⟨lx.tokens, .tagName false [c.toLower]⟩
    else none
  | .endTagOpen =>
    if c.isAlpha then some ⟨lx.tokens, .tagName true [c.toLower]⟩
    else none
  | .tagName closing name =>
    if c = '>' then closeTag lx.tokens closing name []
    else if tagSpace c then
      (if closing then none else some ⟨lx.tokens, .beforeAttrName name []⟩)
    else if c.isAlphanum then some ⟨lx.tokens, .tagName closing (name ++ [c.toLower])⟩
    else none
  | .beforeAttrName name attrs =>
    if c = '>' then closeTag lx.tokens false name attrs
    else if tagSpace c then some ⟨lx.tokens, .beforeAttrName name attrs⟩
    else if c.isAlpha then some ⟨lx.tokens, .attrName name attrs [c.toLower]⟩
    else none
  | .attrName name attrs key =>
    if c = '=' then some ⟨lx.tokens, .beforeAttrValue name attrs key⟩
    else if c.isAlphanum || c == '-' then
      some ⟨lx.tokens, .attrName name attrs (key ++ [c.toLower])⟩
    else none
  | .beforeAttrValue name attrs key =>
    if c = Char.ofNat 34 then some ⟨lx.tokens, .attrValue name attrs key []⟩
    else none
  | .attrValue name attrs key value =>
    if c = Char.ofNat 34 then
      (if (attrs.lookup (String.mk key)).isSome then none
        else some ⟨lx.tokens, .afterAttrValue name (attrs ++ [(String.mk key, String.mk value)])⟩)
    else if c != '&' && c != Char.ofNat 0 && c != Char.ofNat 13 then
      some ⟨lx.tokens, .attrValue name attrs key (value ++ [c])⟩
    else none
  | .afterAttrValue name attrs =>
    if c = '>' then closeTag lx.tokens false name attrs
    else if tagSpace c then some ⟨lx.tokens, .beforeAttrName name attrs⟩
    else none

/-- The tokenizer run over a list of characters. -/
def lexRun (lx : Lexer) : List Char → Option Lexer
  | [] => some lx
  | c :: cs =>
    match lexStep lx c with
    | none => none
    | some next => lexRun next cs

/-- The tokens of a markup text: the tokenizer starts in the data state, reads
the whole text and must end in the data state, where the pending characters are
emitted. -/
def tokenize (markup : String) : Option (List Token) :=
  match lexRun ⟨[], .data []⟩ markup.data with
  | some ⟨tokens, .data run⟩ => some (flushText tokens run)
  | _ => none

/-! ## A runtime for evaluating concrete runs -/

/-- The value of a run of decimal digits read after the digits `acc`. -/
def readDigits : List Char → Nat → Nat
  | [], acc => acc
  | c :: cs, acc => if c.isDigit then readDigits cs (10 * acc + (c.toNat - 48)) else acc

/-- A text with its ASCII letters put in upper case. -/
def upperAscii (t : String) : String :=
  String.mk (t.data.map Char.toUpper)

/-- A runtime for runs whose numbers are natural numbers: a Number is a natural
number or `NaN` (`none`), `parseFloat` reads the run of decimal digits a text
starts with and gives `NaN` when the text starts with anything else, and letters
are put in upper case by their ASCII rule. -/
def natRuntime : Runtime (Option Nat) where
  numFalsy := fun n => n.getD 0 == 0
  numToString := fun n => match n with
    | some k => toString k
    | none => "NaN"
  parseFloat := fun t => match t.data with
    | [] => none
    | c :: cs => if c.isDigit then some (readDigits (c :: cs) 0) else none
  toUpperCase := upperAscii

/-- An image file used in the examples. -/
def scanFile : File := ⟨"scan.png", [137, 80, 78, 71]⟩

/-- A freshly loaded page: clock at zero, no timer, no file, the regions empty
and the result region hidden. -/
def blankPage : Page :=
  { now := 0, timers := [], octFile := none, fundusFile := none, errorText := "",
    resultDisplay := "none", predictionHTML := "", confidenceWidth := "",
    modelInfoText := "", explanationText := "", octPreviewHTML := "",
    fundusPreviewHTML := "" }

/-- A round trip with the given reply, 120 ms to the response and 3 ms to its body. -/
def exchangeOf (reply : Reply (Option Nat)) : Exchange (Option Nat) :=
  ⟨120, 3, reply⟩

/-- A response of the expected shape, for a diseased eye. -/
def glaucomaReply : JSVal (Option Nat) :=
  .obj [("prediction", .str "glaucoma"), ("confidence", .num (some 91)),
    ("used_models", .arr [.str "oct", .str "fundus"]),
    ("explanation", .str "Optic nerve damage."),
    ("image_urls", .obj [("oct", .str "/static/uploads/oct.png")])]

/-- A response of the expected shape whose prediction holds markup. -/
def boldReply : JSVal (Option Nat) :=
  .obj [("prediction", .str "<b>AMD</b>"), ("confidence", .num (some 91)),
    ("used_models", .arr [.str "oct"]),
    ("explanation", .str "Macular degeneration."),
    ("image_urls", .obj [])]

/-- A response with a prediction and a confidence and nothing else. -/
def truncatedReply : JSVal (Option Nat) :=
  .obj [("prediction", .str "normal"), ("confidence", .str "97")]

/-- A response with a confidence in range and nothing else. -/
def confidenceOnlyReply : JSVal (Option Nat) :=
  .obj [("confidence", .num (some 50))]

/-- A response with a prediction and a confidence that has no text. -/
def opaqueConfidenceReply : JSVal (Option Nat) :=
  .obj [("prediction", .str "normal"), ("confidence", .obj [("toString", .num (some 1))])]

/-- A page with an OCT file selected. -/
def octPage : Page := { blankPage with octFile := some scanFile }

/-- A page with an OCT file selected that still shows an earlier result. -/
def shownPage : Page :=
  { octPage with
    resultDisplay := "block"
    predictionHTML := "<h2>glaucoma</h2>"
    confidenceWidth := "91%" }

/-! ## Well-formed responses -/

/-- Whether a value is a string. -/
def JSVal.isStr : JSVal N → Bool
  | .str _ => true
  | _ => false

/-- Whether a value is a number. -/
def JSVal.isNum : JSVal N → Bool
  | .num _ => true
  | _ => false

/-- Whether a value is a string or absent. -/
def JSVal.isOptStr : JSVal N → Bool
  | .str _ => true
  | .undefined => true
  | _ => false

/-- The response shape the page expects from `/predict` on success: `prediction`
a string, `confidence` a number or a string, `used_models` a list of strings,
`explanation` a string, `image_urls` an object whose `oct` and `fundus`, when
present, are strings. -/
def wellFormed (data : JSVal N) : Bool :=
  match data.getProp "prediction", data.getProp "confidence", data.getProp "used_models",
    data.getProp "explanation", data.getProp "image_urls" with
  | some (.str _), some c, some (.arr models), some (.str _), some (.obj urls) =>
    (c.isNum || c.isStr) && models.all JSVal.isStr &&
      ((urls.lookup "oct").getD .undefined).isOptStr &&
      ((urls.lookup "fundus").getD .undefined).isOptStr
  | _, _, _, _, _ => false
/-! ## Timers -/

theorem foldl_runTimer (l : List Timer) (s : Page) :
    l.foldl runTimer s = if l = [] then s else { s with errorText := "" } := by
  induction l generalizing s with
  | nil => simp
  | cons t l ih =>
    simp only [List.foldl_cons, ih, runTimer]
    split <;> simp

theorem elapse_eq (d : Nat) (s : Page) :
    elapse d s =
      { s with
        now := s.now + d
        timers := s.timers.filter (fun x => decide (s.now + d < x.due))
        errorText := if s.timers.filter (fun x => decide (x.due ≤ s.now + d)) = [] then
          s.errorText else "" } := by
  simp only [elapse, foldl_runTimer]
  split <;> rfl

@[simp] theorem elapse_now (d : Nat) (s : Page) : (elapse d s).now = s.now + d := by
  rw [elapse_eq]

@[simp] theorem elapse_timers (d : Nat) (s : Page) :
    (elapse d s).timers = s.timers.filter (fun x => decide (s.now + d < x.due)) := by
  rw [elapse_eq]

theorem elapse_errorText (d : Nat) (s : Page) :
    (elapse d s).errorText =
      if s.timers.filter (fun x => decide (x.due ≤ s.now + d)) = [] then s.errorText else "" := by
  rw [elapse_eq]

@[simp] theorem elapse_resultDisplay (d : Nat) (s : Page) :
    (elapse d s).resultDisplay = s.resultDisplay := by
  rw [elapse_eq]

@[simp] theorem elapse_predictionHTML (d : Nat) (s : Page) :
    (elapse d s).predictionHTML = s.predictionHTML := by
  rw [elapse_eq]

@[simp] theorem elapse_confidenceWidth (d : Nat) (s : Page) :
    (elapse d s).confidenceWidth = s.confidenceWidth := by
  rw [elapse_eq]

/-- A timer that is due fires: the error text is empty afterwards. -/
theorem elapse_errorText_of_due (d : Nat) (s : Page) (t : Timer) (ht : t ∈ s.timers)
    (hdue : t.due ≤ s.now + d) : (elapse d s).errorText = "" := by
  rw [elapse_errorText]
  split
  · next h =>
    have : t ∈ s.timers.filter (fun x => decide (x.due ≤ s.now + d)) := by
      simp [List.mem_filter, ht, hdue]
    rw [h] at this
    simp at this
  · rfl

/-- While no timer is due the error text stays as it is. -/
theorem elapse_errorText_of_waiting (d : Nat) (s : Page)
    (h : ∀ t ∈ s.timers, s.now + d < t.due) : (elapse d s).errorText = s.errorText := by
  rw [elapse_errorText]
  split
  · rfl
  · next hne =>
    exfalso
    apply hne
    rw [List.filter_eq_nil_iff]
    intro t ht
    have := h t ht
    simp
    omega

/-- Time passing in two stretches is time passing in one. -/
theorem elapse_elapse (a b : Nat) (s : Page) : elapse b (elapse a s) = elapse (a + b) s := by
  have htimers : (s.timers.filter (fun x => decide (s.now + a < x.due))).filter
      (fun x => decide (s.now + a + b < x.due)) =
      s.timers.filter (fun x => decide (s.now + (a + b) < x.due)) := by
    rw [List.filter_filter]
    apply List.filter_congr
    intro t _
    by_cases h : s.now + (a + b) < t.due
    · have h1 : s.now + a + b < t.due := by omega
      have h2 : s.now + a < t.due := by omega
      simp [h, h1, h2]
    · have h1 : ¬ s.now + a + b < t.due := by omega
      simp [h, h1]
  have htext : (if (s.timers.filter (fun x => decide (s.now + a < x.due))).filter
      (fun x => decide (x.due ≤ s.now + a + b)) = [] then
        (if s.timers.filter (fun x => decide (x.due ≤ s.now + a)) = [] then s.errorText else "")
      else "") =
      if s.timers.filter (fun x => decide (x.due ≤ s.now + (a + b))) = [] then
        s.errorText else "" := by
    simp only [List.filter_eq_nil_iff, List.mem_filter, decide_eq_true_eq, and_imp]
    by_cases h : ∀ t ∈ s.timers, ¬ t.due ≤ s.now + (a + b)
    · have h1 : ∀ t ∈ s.timers, s.now + a < t.due → ¬ t.due ≤ s.now + a + b := by
        intro t ht _
        have := h t ht
        omega
      have h2 : ∀ t ∈ s.timers, ¬ t.due ≤ s.now + a := by
        intro t ht
        have := h t ht
        omega
      rw [if_pos h, if_pos h1, if_pos h2]
    · rw [if_neg h]
      by_cases h1 : ∀ t ∈ s.timers, s.now + a < t.due → ¬ t.due ≤ s.now + a + b
      · rw [if_pos h1]
        have h2 : ¬ ∀ t ∈ s.timers, ¬ t.due ≤ s.now + a := by
          intro h2
          apply h
          intro t ht
          by_cases h3 : s.now + a < t.due
          · have := h1 t ht h3
            omega
          · have := h2 t ht
            omega
        rw [if_neg h2]
      · rw [if_neg h1]
  rw [elapse_eq b, elapse_eq (a + b)]
  simp only [elapse_now, elapse_timers, elapse_errorText, htimers, htext]
  rw [elapse_eq a]
  simp only [Nat.add_assoc]

/-! ## Error display -/

theorem domText_str (rt : Runtime N) (m : String) : domText rt (.str m) = some m := by
  simp [domText, JSVal.toStr]

/-- What `showError` does with a message that has a text. -/
theorem showError_eq (rt : Runtime N) (m : JSVal N) (s : Page) (text : String)
    (h : domText rt m = some text) :
    showError rt m s =
      (.normal, { s with errorText := text, timers := s.timers ++ [⟨s.now + 5000⟩] }) := by
  simp [showError, h]

/-- A message that cannot be converted to text makes `showError` raise at its
first statement: nothing is stored and nothing is scheduled. -/
theorem showError_raises (rt : Runtime N) (m : JSVal N) (s : Page)
    (h : domText rt m = none) : showError rt m s = (.thrown, s) := by
  simp [showError, h]

/-- What `showError` does with a string. -/
theorem showError_str (rt : Runtime N) (m : String) (s : Page) :
    showError rt (.str m) s =
      (.normal, { s with errorText := m, timers := s.timers ++ [⟨s.now + 5000⟩] }) :=
  showError_eq rt (.str m) s m (domText_str rt m)

/-- C8. After `showError(m)` at time `t`, for a message `m` that has a text, the
text is in the error region and a clear is pending for `t + 5000`; with no later
error, the clear is still pending (and, if no older clear comes due, the message
still shown) at every time before `t + 5000`, and at `t + 5000` and ever after
the clear has fired and the error region's text is empty. -/
theorem showError_cleared (rt : Runtime N) (m : JSVal N) (s : Page) (d : Nat) (text : String)
    (hm : domText rt m = some text) :
    (showError rt m s).1 = .normal ∧
    (showError rt m s).2.errorText = text ∧
    (showError rt m s).2.timers = s.timers ++ [⟨s.now + 5000⟩] ∧
    (d < 5000 → (⟨s.now + 5000⟩ : Timer) ∈ (elapse d (showError rt m s).2).timers) ∧
    (d < 5000 → (∀ t ∈ s.timers, s.now + d < t.due) →
      (elapse d (showError rt m s).2).errorText = text) ∧
    (5000 ≤ d → (elapse d (showError rt m s).2).errorText = "" ∧
      (⟨s.now + 5000⟩ : Timer) ∉ (elapse d (showError rt m s).2).timers) := by
  rw [showError_eq rt m s text hm]
  refine ⟨rfl, rfl, rfl, fun hd => ?_, fun hd hold => ?_, fun hd => ⟨?_, ?_⟩⟩
  · simp [List.mem_filter]
    omega
  · rw [elapse_errorText_of_waiting]
    intro t ht
    simp only [List.mem_append, List.mem_singleton] at ht
    rcases ht with ht | ht
    · exact hold t ht
    · subst ht
      simp only []
      omega
  · apply elapse_errorText_of_due d _ ⟨s.now + 5000⟩
    · simp
    · simp only []
      omega
  · simp [List.mem_filter]
    omega

theorem showError_cleared_witness :
    domText natRuntime (.str "Please upload at least one image") =
      some "Please upload at least one image" ∧
    (elapse 4999 (showError natRuntime (.str "Please upload at least one image")
      blankPage).2).errorText = "Please upload at least one image" ∧
    (elapse 5000 (showError natRuntime (.str "Please upload at least one image")
      blankPage).2).errorText = "" :=
  ⟨rfl,
    (showError_cleared natRuntime (.str "Please upload at least one image") blankPage
      4999 "Please upload at least one image" rfl).2.2.2.2.1 (by decide) (by decide),
    ((showError_cleared natRuntime (.str "Please upload at least one image") blankPage
      5000 "Please upload at least one image" rfl).2.2.2.2.2 (by decide)).1⟩

/-- C9. `showError` only ever adds a timer.  When `showError(m1)` runs at time
`t1` and `showError(m2)` at `t2 = t1 + d` with `0 < d < 5000`, for messages that
have a text, both clears are pending after the second call; `m2` is shown from
then on (until `t1 + 5000` if no older clear is pending); at `t1 + 5000`, which
is `5000 - d < 5000` ms after `m2` was set, the first call's clear fires and the
error region is empty, while the second call's own clear is still waiting. -/
theorem showError_overlap (rt : Runtime N) (m1 m2 : JSVal N) (s : Page) (d : Nat)
    (text1 text2 : String) (hm1 : domText rt m1 = some text1)
    (hm2 : domText rt m2 = some text2) (hpos : 0 < d) (hlt : d < 5000) :
    (showError rt m1 s).2.timers = s.timers ++ [⟨s.now + 5000⟩] ∧
    (twoErrors rt m1 m2 d s).timers =
      (elapse d (showError rt m1 s).2).timers ++ [⟨s.now + d + 5000⟩] ∧
    (⟨s.now + 5000⟩ : Timer) ∈ (twoErrors rt m1 m2 d s).timers ∧
    (twoErrors rt m1 m2 d s).errorText = text2 ∧
    (s.timers = [] → ∀ e, e < 5000 - d →
      (elapse e (twoErrors rt m1 m2 d s)).errorText = text2) ∧
    (elapse (5000 - d) (twoErrors rt m1 m2 d s)).now = s.now + 5000 ∧
    5000 - d < 5000 ∧
    (elapse (5000 - d) (twoErrors rt m1 m2 d s)).errorText = "" ∧
    (⟨s.now + d + 5000⟩ : Timer) ∈ (elapse (5000 - d) (twoErrors rt m1 m2 d s)).timers := by
  have h1 := showError_eq rt m1 s text1 hm1
  have h2 := showError_eq rt m2 (elapse d (showError rt m1 s).2) text2 hm2
  have htimers : (twoErrors rt m1 m2 d s).timers =
      (elapse d (showError rt m1 s).2).timers ++ [⟨s.now + d + 5000⟩] := by
    unfold twoErrors
    rw [h2, h1]
    simp
  have htext : (twoErrors rt m1 m2 d s).errorText = text2 := by
    unfold twoErrors
    rw [h2]
  have hnow : (twoErrors rt m1 m2 d s).now = s.now + d := by
    unfold twoErrors
    rw [h2, h1]
    simp
  have hfirst : (showError rt m1 s).2.timers = s.timers ++ [⟨s.now + 5000⟩] := by
    rw [h1]
  have hmem : (⟨s.now + 5000⟩ : Timer) ∈ (twoErrors rt m1 m2 d s).timers := by
    rw [htimers, elapse_timers, hfirst, h1]
    simp [List.mem_filter]
    omega
  refine ⟨hfirst, htimers, hmem, htext, fun hs e he => ?_, ?_, by omega, ?_, ?_⟩
  · rw [elapse_errorText_of_waiting, htext]
    intro t ht
    rw [htimers, elapse_timers, hfirst, h1] at ht
    simp [hs, List.mem_filter] at ht
    rw [hnow]
    rcases ht with ht | ht
    · rw [ht.1]
      simp only []
      omega
    · rw [ht]
      simp only []
      omega
  · rw [elapse_now, hnow]
    omega
  · apply elapse_errorText_of_due _ _ ⟨s.now + 5000⟩ hmem
    rw [hnow]
    simp only []
    omega
  · rw [elapse_timers, htimers, hnow]
    simp [List.mem_filter]
    omega

theorem showError_overlap_witness :
    (0 < 2000 ∧ 2000 < 5000) ∧
    (elapse 2999 (twoErrors natRuntime (.str "Please upload at least one image")
      (.str "No valid image") 2000 blankPage)).errorText = "No valid image" ∧
    (elapse (5000 - 2000) (twoErrors natRuntime (.str "Please upload at least one image")
      (.str "No valid image") 2000 blankPage)).errorText = "" :=
  ⟨by decide,
    (showError_overlap natRuntime (.str "Please upload at least one image")
      (.str "No valid image") blankPage 2000 "Please upload at least one image"
      "No valid image" rfl rfl (by decide) (by decide)).2.2.2.2.1 rfl 2999 (by decide),
    (showError_overlap natRuntime (.str "Please upload at least one image")
      (.str "No valid image") blankPage 2000 "Please upload at least one image"
      "No valid image" rfl rfl (by decide) (by decide)).2.2.2.2.2.2.2.1⟩

/-! ## Submission handler: validation and request -/

/-- C1. On every page whose two file slots are both empty, the submit handler
calls `fetch` not at all and leaves the validation message
'Please upload at least one image' in the error region. -/
theorem submit_without_files (rt : Runtime N) (x : Exchange N) (s : Page)
    (hoct : s.octFile = none) (hfundus : s.fundusFile = none) :
    (submitHandler rt x s).requests = [] ∧
    (submitHandler rt x s).page.errorText = "Please upload at least one image" := by
  simp [submitHandler, hoct, hfundus, showError_str]

theorem submit_without_files_witness :
    blankPage.octFile = none ∧ blankPage.fundusFile = none ∧
    (submitHandler natRuntime (exchangeOf .networkFailure) blankPage).requests = [] ∧
    (submitHandler natRuntime (exchangeOf .networkFailure) blankPage).page.errorText =
      "Please upload at least one image" :=
  ⟨rfl, rfl, submit_without_files natRuntime (exchangeOf .networkFailure) blankPage rfl rfl⟩

theorem tryBlock_requests (rt : Runtime N) (x : Exchange N) (q : Request) (s : Page) :
    (tryBlock rt x q s).requests = [q] := by
  unfold tryBlock
  split
  · rfl
  · rfl
  · dsimp only
    split
    · rfl
    · split <;> rfl

theorem submit_requests (rt : Runtime N) (x : Exchange N) (s : Page)
    (h : ¬ (s.octFile = none ∧ s.fundusFile = none)) :
    (submitHandler rt x s).requests =
      [⟨"/predict", "POST",
        (match s.octFile with
          | some f => [("oct_file", f)]
          | none => []) ++
        (match s.fundusFile with
          | some f => [("fundus_file", f)]
          | none => [])⟩] := by
  unfold submitHandler
  dsimp only
  rw [if_neg (by simpa using h)]
  split
  · rw [tryBlock_requests]
    cases s.octFile <;> cases s.fundusFile <;> rfl
  · dsimp only
    rw [tryBlock_requests]
    cases s.octFile <;> cases s.fundusFile <;> rfl

/-- C2. When exactly one file slot holds a file `f`, the submit handler issues
exactly one request, a POST to '/predict', whose multipart body is the single
part `oct_file` = `f` if the OCT slot is the one that is filled, and the single
part `fundus_file` = `f` if the fundus slot is. -/
theorem submit_single_file (rt : Runtime N) (x : Exchange N) (s : Page) (f : File)
    (h : (s.octFile = some f ∧ s.fundusFile = none) ∨
      (s.octFile = none ∧ s.fundusFile = some f)) :
    (s.fundusFile = none →
      (submitHandler rt x s).requests = [⟨"/predict", "POST", [("oct_file", f)]⟩]) ∧
    (s.octFile = none →
      (submitHandler rt x s).requests = [⟨"/predict", "POST", [("fundus_file", f)]⟩]) := by
  rcases h with ⟨h1, h2⟩ | ⟨h1, h2⟩
  · refine ⟨fun _ => ?_, fun h => ?_⟩
    · rw [submit_requests rt x s (by simp [h1]), h1, h2]
      rfl
    · rw [h1] at h
      cases h
  · refine ⟨fun h => ?_, fun _ => ?_⟩
    · rw [h2] at h
      cases h
    · rw [submit_requests rt x s (by simp [h2]), h1, h2]
      rfl

theorem submit_single_file_witness :
    (({ blankPage with octFile := some scanFile } : Page).octFile = some scanFile ∧
      ({ blankPage with octFile := some scanFile } : Page).fundusFile = none) ∧
    (submitHandler natRuntime (exchangeOf .unparsable)
      { blankPage with octFile := some scanFile }).requests =
      [⟨"/predict", "POST", [("oct_file", scanFile)]⟩] :=
  ⟨⟨rfl, rfl⟩,
    (submit_single_file natRuntime (exchangeOf .unparsable)
      { blankPage with octFile := some scanFile } scanFile (Or.inl ⟨rfl, rfl⟩)).1 rfl⟩

/-! ## Submission handler: replies -/

/-- The handler on a page with a file selected: the two resets, then the `try`
block, then the `catch` clause if the block threw. -/
theorem submit_with_file (rt : Runtime N) (x : Exchange N) (s : Page)
    (h : s.octFile ≠ none ∨ s.fundusFile ≠ none) :
    ∃ q : Request,
      submitHandler rt x s =
        match (tryBlock rt x q { s with errorText := "", resultDisplay := "none" }).completion with
        | .normal => tryBlock rt x q { s with errorText := "", resultDisplay := "none" }
        | .thrown =>
          { tryBlock rt x q { s with errorText := "", resultDisplay := "none" } with
            page := (showError rt (.str "An error occurred during analysis. Please try again.")
              (tryBlock rt x q { s with errorText := "", resultDisplay := "none" }).page).2
            completion := .normal } := by
  have hne : ¬ (s.octFile.isNone && s.fundusFile.isNone) = true := by
    rcases h with h | h
    · cases hs : s.octFile with
      | none => exact absurd hs h
      | some f => simp
    · cases hs : s.fundusFile with
      | none => exact absurd hs h
      | some f => simp
  unfold submitHandler
  dsimp only
  rw [if_neg hne]
  simp only [showError_str]
  exact ⟨_, rfl⟩

/-- C3. When a file is selected and the parsed response has a non-empty string
`error` field `e`, the submit handler ends with the error region's text equal to
`e`, without having called `displayResults`, and with the result region still
hidden (display 'none'), whatever else the response holds. -/
theorem submit_error_reply (rt : Runtime N) (x : Exchange N) (s : Page) (data : JSVal N)
    (e : String) (hfile : s.octFile ≠ none ∨ s.fundusFile ≠ none)
    (hreply : x.reply = .json data) (herr : data.getProp "error" = some (.str e))
    (hne : e ≠ "") :
    (submitHandler rt x s).page.errorText = e ∧
    (submitHandler rt x s).renders = 0 ∧
    (submitHandler rt x s).page.resultDisplay = "none" ∧
    (submitHandler rt x s).completion = .normal := by
  obtain ⟨q, hq⟩ := submit_with_file rt x s hfile
  have ht : tryBlock rt x q { s with errorText := "", resultDisplay := "none" } =
      ⟨(showError rt (.str e) (elapse x.bodyLatency (elapse x.fetchLatency
        { s with errorText := "", resultDisplay := "none" }))).2, [q], 0, .normal⟩ := by
    unfold tryBlock
    simp [hreply, herr, JSVal.truthy, hne, showError_str]
  rw [hq, ht]
  simp [showError_str]

theorem submit_error_reply_witness :
    (({ blankPage with fundusFile := some scanFile } : Page).octFile ≠ none ∨
      ({ blankPage with fundusFile := some scanFile } : Page).fundusFile ≠ none) ∧
    (JSVal.obj [("error", JSVal.str "No valid image"), ("prediction", JSVal.str "normal")] :
      JSVal (Option Nat)).getProp "error" = some (.str "No valid image") ∧
    (submitHandler natRuntime
      (exchangeOf (.json (.obj [("error", .str "No valid image"), ("prediction", .str "normal")])))
      { blankPage with fundusFile := some scanFile }).page.errorText = "No valid image" :=
  ⟨Or.inr (by decide), rfl,
    (submit_error_reply natRuntime
      (exchangeOf (.json (.obj [("error", .str "No valid image"), ("prediction", .str "normal")])))
      { blankPage with fundusFile := some scanFile }
      (.obj [("error", .str "No valid image"), ("prediction", .str "normal")])
      "No valid image" (Or.inr (by decide)) rfl rfl (by decide)).1⟩

/-- C7. When a file is selected and the request fails (`fetch` rejects) or the
response body does not parse as JSON (`response.json()` rejects), the submit
handler ends with the error region's text equal to
'An error occurred during analysis. Please try again.', without having called
`displayResults`, and with the result region hidden (display 'none'). -/
theorem submit_failed_exchange (rt : Runtime N) (x : Exchange N) (s : Page)
    (hfile : s.octFile ≠ none ∨ s.fundusFile ≠ none)
    (hreply : x.reply = .networkFailure ∨ x.reply = .unparsable) :
    (submitHandler rt x s).page.errorText =
      "An error occurred during analysis. Please try again." ∧
    (submitHandler rt x s).renders = 0 ∧
    (submitHandler rt x s).page.resultDisplay = "none" := by
  obtain ⟨q, hq⟩ := submit_with_file rt x s hfile
  rcases hreply with hreply | hreply
  · have ht : tryBlock rt x q { s with errorText := "", resultDisplay := "none" } =
        ⟨elapse x.fetchLatency { s with errorText := "", resultDisplay := "none" },
          [q], 0, .thrown⟩ := by
      unfold tryBlock
      simp [hreply]
    rw [hq, ht]
    simp [showError_str]
  · have ht : tryBlock rt x q { s with errorText := "", resultDisplay := "none" } =
        ⟨elapse x.bodyLatency (elapse x.fetchLatency
          { s with errorText := "", resultDisplay := "none" }), [q], 0, .thrown⟩ := by
      unfold tryBlock
      simp [hreply]
    rw [hq, ht]
    simp [showError_str]

theorem submit_failed_exchange_witness :
    (({ blankPage with octFile := some scanFile } : Page).octFile ≠ none ∨
      ({ blankPage with octFile := some scanFile } : Page).fundusFile ≠ none) ∧
    (submitHandler natRuntime (exchangeOf .networkFailure)
      { blankPage with octFile := some scanFile }).page.errorText =
      "An error occurred during analysis. Please try again." :=
  ⟨Or.inl (by decide),
    (submit_failed_exchange natRuntime (exchangeOf .networkFailure)
      { blankPage with octFile := some scanFile } (Or.inl (by decide)) (Or.inl rfl)).1⟩

/-! ## Result renderer -/

theorem showFundusPreview_fields (rt : Runtime N) (data : JSVal N) (s : Page) :
    (showFundusPreview rt data s).2.resultDisplay = s.resultDisplay ∧
    (showFundusPreview rt data s).2.predictionHTML = s.predictionHTML ∧
    (showFundusPreview rt data s).2.confidenceWidth = s.confidenceWidth := by
  unfold showFundusPreview
  repeat' split
  all_goals exact ⟨rfl, rfl, rfl⟩

theorem showOctPreview_fields (rt : Runtime N) (data : JSVal N) (s : Page) :
    (showOctPreview rt data s).2.resultDisplay = s.resultDisplay ∧
    (showOctPreview rt data s).2.predictionHTML = s.predictionHTML ∧
    (showOctPreview rt data s).2.confidenceWidth = s.confidenceWidth := by
  unfold showOctPreview
  repeat' split
  all_goals first | exact ⟨rfl, rfl, rfl⟩ | exact showFundusPreview_fields rt data _

theorem showOctPreview_missing (rt : Runtime N) (data : JSVal N) (s : Page)
    (h : data.getProp "image_urls" = some .undefined) :
    showOctPreview rt data s = (.thrown, s) := by
  have h1 : ((data.getProp "image_urls").bind fun urls => urls.getProp "oct") = none := by
    rw [h]
    rfl
  unfold showOctPreview
  simp only [h1]

/-- The first three assignments of `displayResults` are made, and survive to the
end of the call, as soon as the prediction is a string and the confidence has a
text. -/
theorem displayResults_start (rt : Runtime N) (data c : JSVal N) (s : Page) (p t : String)
    (hp : data.getProp "prediction" = some (.str p))
    (hc : data.getProp "confidence" = some c) (ht : c.toStr rt = some t) :
    (displayResults rt data s).2.resultDisplay = "block" ∧
    (displayResults rt data s).2.predictionHTML =
      "\n                <div class=\"prediction-badge " ++
        (if p = "normal" then "badge-normal" else "badge-disease") ++ "\">" ++
      "\n                    " ++ rt.toUpperCase p ++ " " ++
        (if p = "normal" then "" else "Detected") ++
      "\n                </div>" ++
      "\n                <h2>" ++ (if p = "normal" then "No Issues Found" else p) ++ "</h2>" ++
      "\n            " ∧
    (displayResults rt data s).2.confidenceWidth = rt.numToString (rt.parseFloat t) ++ "%" := by
  have hb : ((data.getProp "confidence").bind fun c => c.toStr rt) = some t := by
    rw [hc]
    exact ht
  unfold displayResults
  simp only [hp, hb, JSVal.strictEqStr]
  by_cases hn : p = "normal"
  · subst hn
    simp only [beq_self_eq_true, Bool.not_true, Bool.false_eq_true, ↓reduceIte]
    repeat' split
    all_goals first | exact ⟨rfl, rfl, rfl⟩ | exact showOctPreview_fields rt data _
  · have hbeq : (p == "normal") = false := by simpa using hn
    simp only [hbeq, hn, Bool.not_false, Bool.false_eq_true, ↓reduceIte]
    repeat' split
    all_goals first | exact ⟨rfl, rfl, rfl⟩ | exact showOctPreview_fields rt data _

/-- A response that lacks `prediction`, `used_models` or `image_urls` makes
`displayResults` raise. -/
theorem displayResults_throws (rt : Runtime N) (data : JSVal N) (s : Page)
    (h : data.getProp "prediction" = some .undefined ∨
      data.getProp "used_models" = some .undefined ∨
      data.getProp "image_urls" = some .undefined) :
    (displayResults rt data s).1 = .thrown := by
  unfold displayResults
  rcases h with h | h | h
  · simp only [h]
    repeat' split
    all_goals rfl
  · simp only [h]
    repeat' split
    all_goals rfl
  · simp only [showOctPreview_missing rt data _ h]
    repeat' split
    all_goals rfl

/-- When `used_models` or `image_urls` is missing, the two previews are as they
were before the call. -/
theorem displayResults_previews (rt : Runtime N) (data : JSVal N) (s : Page)
    (h : data.getProp "used_models" = some .undefined ∨
      data.getProp "image_urls" = some .undefined) :
    (displayResults rt data s).2.octPreviewHTML = s.octPreviewHTML ∧
    (displayResults rt data s).2.fundusPreviewHTML = s.fundusPreviewHTML := by
  unfold displayResults
  rcases h with h | h
  · simp only [h]
    repeat' split
    all_goals exact ⟨rfl, rfl⟩
  · simp only [showOctPreview_missing rt data _ h]
    repeat' split
    all_goals exact ⟨rfl, rfl⟩

theorem joinRest_strings (rt : Runtime N) (sep : String) (l : List (JSVal N))
    (h : l.all JSVal.isStr = true) : ∃ r, joinRest rt sep l = some r := by
  induction l with
  | nil => exact ⟨"", by simp [joinRest]⟩
  | cons v rest ih =>
    simp only [List.all_cons, Bool.and_eq_true] at h
    obtain ⟨r, hr⟩ := ih h.2
    cases v <;> simp [JSVal.isStr] at h
    simp [joinRest, JSVal.toStr, hr]

theorem joinItems_strings (rt : Runtime N) (sep : String) (l : List (JSVal N))
    (h : l.all JSVal.isStr = true) : ∃ r, joinItems rt sep l = some r := by
  cases l with
  | nil => exact ⟨"", by simp [joinItems]⟩
  | cons v rest =>
    simp only [List.all_cons, Bool.and_eq_true] at h
    obtain ⟨r, hr⟩ := joinRest_strings rt sep rest h.2
    cases v <;> simp [JSVal.isStr] at h
    simp [joinItems, JSVal.toStr, hr]

theorem showFundusPreview_wellFormed (rt : Runtime N) (data : JSVal N) (s : Page)
    (urls : List (String × JSVal N)) (h : data.getProp "image_urls" = some (.obj urls))
    (hf : ((urls.lookup "fundus").getD .undefined).isOptStr = true) :
    (showFundusPreview rt data s).1 = .normal := by
  have hb : ((data.getProp "image_urls").bind fun urls => urls.getProp "fundus") =
      some ((urls.lookup "fundus").getD .undefined) := by
    rw [h]
    rfl
  unfold showFundusPreview
  simp only [hb]
  cases hv : (urls.lookup "fundus").getD .undefined <;> rw [hv] at hf <;>
    simp [JSVal.isOptStr] at hf <;> simp [JSVal.truthy, JSVal.toStr]
  split <;> rfl

theorem showOctPreview_wellFormed (rt : Runtime N) (data : JSVal N) (s : Page)
    (urls : List (String × JSVal N)) (h : data.getProp "image_urls" = some (.obj urls))
    (ho : ((urls.lookup "oct").getD .undefined).isOptStr = true)
    (hf : ((urls.lookup "fundus").getD .undefined).isOptStr = true) :
    (showOctPreview rt data s).1 = .normal := by
  have hb : ((data.getProp "image_urls").bind fun urls => urls.getProp "oct") =
      some ((urls.lookup "oct").getD .undefined) := by
    rw [h]
    rfl
  unfold showOctPreview
  simp only [hb]
  cases hv : (urls.lookup "oct").getD .undefined <;> rw [hv] at ho <;>
    simp [JSVal.isOptStr] at ho <;> simp [JSVal.truthy, JSVal.toStr]
  · exact showFundusPreview_wellFormed rt data _ urls h hf
  · split <;> exact showFundusPreview_wellFormed rt data _ urls h hf

/-- A well-formed response is rendered to the end. -/
theorem displayResults_wellFormed (rt : Runtime N) (data : JSVal N) (s : Page)
    (hw : wellFormed data = true) : (displayResults rt data s).1 = .normal := by
  unfold wellFormed at hw
  split at hw
  · next _ _ _ _ _ p c models e urls h1 h2 h3 h4 h5 =>
    simp only [Bool.and_eq_true, Bool.or_eq_true] at hw
    obtain ⟨⟨⟨hc, hm⟩, ho⟩, hf⟩ := hw
    obtain ⟨j, hj⟩ := joinItems_strings rt " + " models hm
    have hct : ∃ t, c.toStr rt = some t := by
      cases c <;> simp [JSVal.isNum, JSVal.isStr] at hc <;> simp [JSVal.toStr]
    obtain ⟨t, ht⟩ := hct
    have hb : ((data.getProp "confidence").bind fun c => c.toStr rt) = some t := by
      rw [h2]
      exact ht
    have he : ((data.getProp "explanation").bind fun e => domText rt e) = some e := by
      rw [h4]
      exact domText_str rt e
    unfold displayResults
    simp only [h1, hb, h3, hj, he]
    exact showOctPreview_wellFormed rt data _ urls h5 ho hf
  · cases hw

/-! ## Malformed responses -/

/-- The `try` block on a parsed response with no `error` field: it calls
`displayResults` once and ends the way that call ends. -/
theorem tryBlock_render (rt : Runtime N) (x : Exchange N) (q : Request) (s : Page)
    (data : JSVal N) (hreply : x.reply = .json data)
    (herr : data.getProp "error" = some .undefined) :
    tryBlock rt x q s =
      ⟨(displayResults rt data (elapse x.bodyLatency (elapse x.fetchLatency s))).2, [q], 1,
        (displayResults rt data (elapse x.bodyLatency (elapse x.fetchLatency s))).1⟩ := by
  unfold tryBlock
  simp [hreply, herr, JSVal.truthy]

/-- The handler on a parsed response with no `error` field on which
`displayResults` raises: the page is the one `displayResults` left, with the
generic message shown by the `catch` clause. -/
theorem submit_render_thrown (rt : Runtime N) (x : Exchange N) (s : Page) (data : JSVal N)
    (hfile : s.octFile ≠ none ∨ s.fundusFile ≠ none)
    (hreply : x.reply = .json data) (herr : data.getProp "error" = some .undefined)
    (hthrow : ∀ s0 : Page, (displayResults rt data s0).1 = .thrown) :
    ∃ s0 : Page, s0.octPreviewHTML = s.octPreviewHTML ∧
      s0.fundusPreviewHTML = s.fundusPreviewHTML ∧
      submitHandler rt x s =
        ⟨(showError rt (.str "An error occurred during analysis. Please try again.")
          (displayResults rt data s0).2).2, (submitHandler rt x s).requests, 1, .normal⟩ := by
  obtain ⟨q, hq⟩ := submit_with_file rt x s hfile
  refine ⟨elapse x.bodyLatency (elapse x.fetchLatency
    { s with errorText := "", resultDisplay := "none" }), ?_, ?_, ?_⟩
  · simp only [elapse_eq]
  · simp only [elapse_eq]
  · rw [hq, tryBlock_render rt x q _ data hreply herr]
    simp only [hthrow]

/-- C5, as the code has it.  A parsed response with no `error` field from which
`prediction`, `used_models` or `image_urls` is missing makes `displayResults`
raise; the call sits inside the handler's `try` block, so the failure is caught:
the handler completes normally and the error region shows
'An error occurred during analysis. Please try again.'. -/
theorem submit_malformed_reply (rt : Runtime N) (x : Exchange N) (s : Page) (data : JSVal N)
    (hfile : s.octFile ≠ none ∨ s.fundusFile ≠ none)
    (hreply : x.reply = .json data) (herr : data.getProp "error" = some .undefined)
    (hmiss : data.getProp "prediction" = some .undefined ∨
      data.getProp "used_models" = some .undefined ∨
      data.getProp "image_urls" = some .undefined) :
    (∀ s0 : Page, (displayResults rt data s0).1 = .thrown) ∧
    (submitHandler rt x s).renders = 1 ∧
    (submitHandler rt x s).completion = .normal ∧
    (submitHandler rt x s).page.errorText =
      "An error occurred during analysis. Please try again." := by
  have hthrow : ∀ s0 : Page, (displayResults rt data s0).1 = .thrown :=
    fun s0 => displayResults_throws rt data s0 hmiss
  obtain ⟨s0, -, -, h⟩ := submit_render_thrown rt x s data hfile hreply herr hthrow
  refine ⟨hthrow, ?_⟩
  rw [h]
  simp [showError_str]

theorem submit_malformed_reply_witness :
    (octPage.octFile ≠ none ∨ octPage.fundusFile ≠ none) ∧
    truncatedReply.getProp "error" = some .undefined ∧
    truncatedReply.getProp "used_models" = some .undefined ∧
    (submitHandler natRuntime (exchangeOf (.json truncatedReply)) octPage).page.errorText =
      "An error occurred during analysis. Please try again." :=
  ⟨Or.inl (by decide), rfl, rfl,
    (submit_malformed_reply natRuntime (exchangeOf (.json truncatedReply)) octPage
      truncatedReply (Or.inl (by decide)) rfl rfl (Or.inr (Or.inl rfl))).2.2.2⟩

/-- C5, as stated, fails.  The response `{}` has no `error` field and none of the
expected fields; `displayResults` raises on it, yet the submit handler completes
normally (nothing escapes it) and the error region is not empty: it holds the
generic message. -/
theorem malformed_reply_is_caught :
    (JSVal.obj [] : JSVal (Option Nat)).getProp "error" = some .undefined ∧
    (JSVal.obj [] : JSVal (Option Nat)).getProp "prediction" = some .undefined ∧
    (displayResults natRuntime (.obj []) octPage).1 = .thrown ∧
    ¬ ((submitHandler natRuntime (exchangeOf (.json (.obj []))) octPage).completion = .thrown ∧
      (submitHandler natRuntime (exchangeOf (.json (.obj []))) octPage).page.errorText = "") ∧
    (submitHandler natRuntime (exchangeOf (.json (.obj []))) octPage).completion = .normal ∧
    (submitHandler natRuntime (exchangeOf (.json (.obj []))) octPage).page.errorText =
      "An error occurred during analysis. Please try again." :=
  ⟨rfl, rfl, by decide, by decide, by decide, by decide⟩

/-! ## Partial rendering -/

/-- C10, as the code has it.  For a parsed response with no `error` field, a
string `prediction` and a `confidence` that can be converted to text, but no
`used_models` (or no `image_urls`), `displayResults` raises only after it has
set the result region's display to 'block' and assigned the prediction block and
the confidence bar width; nothing undoes these assignments and the previews are
not reached, so the submit handler ends with the result region visible, these
two parts overwritten and the previews as they were. -/
theorem submit_partial_render (rt : Runtime N) (x : Exchange N) (s : Page)
    (data c : JSVal N) (p t : String)
    (hfile : s.octFile ≠ none ∨ s.fundusFile ≠ none)
    (hreply : x.reply = .json data) (herr : data.getProp "error" = some .undefined)
    (hp : data.getProp "prediction" = some (.str p))
    (hc : data.getProp "confidence" = some c) (ht : c.toStr rt = some t)
    (hmiss : data.getProp "used_models" = some .undefined ∨
      data.getProp "image_urls" = some .undefined) :
    (∀ s0 : Page,
      (displayResults rt data s0).1 = .thrown ∧
      (displayResults rt data s0).2.resultDisplay = "block" ∧
      (displayResults rt data s0).2.predictionHTML =
        "\n                <div class=\"prediction-badge " ++
          (if p = "normal" then "badge-normal" else "badge-disease") ++ "\">" ++
        "\n                    " ++ rt.toUpperCase p ++ " " ++
          (if p = "normal" then "" else "Detected") ++
        "\n                </div>" ++
        "\n                <h2>" ++ (if p = "normal" then "No Issues Found" else p) ++
          "</h2>" ++
        "\n            " ∧
      (displayResults rt data s0).2.confidenceWidth =
        rt.numToString (rt.parseFloat t) ++ "%") ∧
    (submitHandler rt x s).page.resultDisplay = "block" ∧
    (submitHandler rt x s).page.predictionHTML =
      "\n                <div class=\"prediction-badge " ++
        (if p = "normal" then "badge-normal" else "badge-disease") ++ "\">" ++
      "\n                    " ++ rt.toUpperCase p ++ " " ++
        (if p = "normal" then "" else "Detected") ++
      "\n                </div>" ++
      "\n                <h2>" ++ (if p = "normal" then "No Issues Found" else p) ++ "</h2>" ++
      "\n            " ∧
    (submitHandler rt x s).page.confidenceWidth = rt.numToString (rt.parseFloat t) ++ "%" ∧
    (submitHandler rt x s).page.octPreviewHTML = s.octPreviewHTML ∧
    (submitHandler rt x s).page.fundusPreviewHTML = s.fundusPreviewHTML := by
  have hthrow : ∀ s0 : Page, (displayResults rt data s0).1 = .thrown :=
    fun s0 => displayResults_throws rt data s0 (Or.inr hmiss)
  obtain ⟨s0, ho, hf, h⟩ := submit_render_thrown rt x s data hfile hreply herr hthrow
  refine ⟨fun s1 => ⟨hthrow s1, displayResults_start rt data c s1 p t hp hc ht⟩, ?_⟩
  rw [h]
  simp only [showError_str]
  obtain ⟨h1, h2, h3⟩ := displayResults_start rt data c s0 p t hp hc ht
  obtain ⟨h4, h5⟩ := displayResults_previews rt data s0 hmiss
  exact ⟨h1, h2, h3, h4.trans ho, h5.trans hf⟩

theorem submit_partial_render_witness :
    (octPage.octFile ≠ none ∨ octPage.fundusFile ≠ none) ∧
    truncatedReply.getProp "error" = some .undefined ∧
    truncatedReply.getProp "prediction" = some (.str "normal") ∧
    truncatedReply.getProp "confidence" = some (.str "97") ∧
    truncatedReply.getProp "used_models" = some .undefined ∧
    (submitHandler natRuntime (exchangeOf (.json truncatedReply)) octPage).page.resultDisplay =
      "block" ∧
    (submitHandler natRuntime (exchangeOf (.json truncatedReply)) octPage).page.confidenceWidth =
      "97%" :=
  ⟨Or.inl (by decide), rfl, rfl, rfl, rfl,
    (submit_partial_render natRuntime (exchangeOf (.json truncatedReply)) octPage
      truncatedReply (.str "97") "normal" "97" (Or.inl (by decide)) rfl rfl rfl rfl rfl
      (Or.inl rfl)).2.1,
    (submit_partial_render natRuntime (exchangeOf (.json truncatedReply)) octPage
      truncatedReply (.str "97") "normal" "97" (Or.inl (by decide)) rfl rfl rfl rfl rfl
      (Or.inl rfl)).2.2.2.1⟩

/-- C10, as stated, fails.  The response with `prediction` the string 'normal'
and `confidence` the object whose only property is `toString`, the number 1, has
no `error` field, a string `prediction` and no `used_models`, but its
`confidence` cannot be converted to text: `parseFloat` raises before the prediction block and the
confidence bar are assigned.  On a page that shows an earlier result the handler
ends with the result region visible and both parts still those of the earlier
result. -/
theorem opaque_confidence_not_rendered :
    opaqueConfidenceReply.getProp "error" = some .undefined ∧
    opaqueConfidenceReply.getProp "prediction" = some (.str "normal") ∧
    opaqueConfidenceReply.getProp "used_models" = some .undefined ∧
    (displayResults natRuntime opaqueConfidenceReply shownPage).1 = .thrown ∧
    (submitHandler natRuntime (exchangeOf (.json opaqueConfidenceReply))
      shownPage).page.resultDisplay = "block" ∧
    (submitHandler natRuntime (exchangeOf (.json opaqueConfidenceReply))
      shownPage).page.predictionHTML = "<h2>glaucoma</h2>" ∧
    (submitHandler natRuntime (exchangeOf (.json opaqueConfidenceReply))
      shownPage).page.confidenceWidth = "91%" :=
  ⟨rfl, rfl, rfl, by decide, by decide, by decide, by decide⟩

/-! ## Confidence bar -/

/-- C6, as the code has it.  For every response passed to `displayResults` whose
prediction is a string and whose confidence is a number `x` that `parseFloat`
reads back from its own text (as it does every finite number, those of [0, 100]
among them), or a string that `parseFloat` reads as `x`, the width assigned to
the confidence bar is the text of `x` followed by '%'. -/
theorem displayResults_width (rt : Runtime N) (data c : JSVal N) (s : Page) (p : String)
    (x : N) (hp : data.getProp "prediction" = some (.str p))
    (hc : data.getProp "confidence" = some c)
    (hx : (c = .num x ∧ rt.parseFloat (rt.numToString x) = x) ∨
      (∃ t, c = .str t ∧ rt.parseFloat t = x)) :
    (displayResults rt data s).2.confidenceWidth = rt.numToString x ++ "%" := by
  rcases hx with ⟨hnum, hround⟩ | ⟨t, hstr, hread⟩
  · have ht : c.toStr rt = some (rt.numToString x) := by
      rw [hnum]
      simp [JSVal.toStr]
    rw [(displayResults_start rt data c s p _ hp hc ht).2.2, hround]
  · have ht : c.toStr rt = some t := by
      rw [hstr]
      simp [JSVal.toStr]
    rw [(displayResults_start rt data c s p _ hp hc ht).2.2, hread]

theorem displayResults_width_witness :
    glaucomaReply.getProp "prediction" = some (.str "glaucoma") ∧
    glaucomaReply.getProp "confidence" = some (.num (some 91)) ∧
    natRuntime.parseFloat (natRuntime.numToString (some 91)) = some 91 ∧
    (displayResults natRuntime glaucomaReply octPage).2.confidenceWidth =
      natRuntime.numToString (some 91) ++ "%" :=
  ⟨rfl, rfl, by decide,
    displayResults_width natRuntime glaucomaReply (.num (some 91)) octPage "glaucoma"
      (some 91) rfl rfl (Or.inl ⟨rfl, by decide⟩)⟩

/-- C6, as stated, fails.  The response whose only field is `confidence`, the
number 50, has a confidence in [0, 100] but no prediction: `displayResults` raises at
`data.prediction.toUpperCase()`, before the statement that sets the width, and
the confidence bar keeps the width it had. -/
theorem confidence_without_prediction :
    confidenceOnlyReply.getProp "confidence" = some (.num (some 50)) ∧
    (displayResults natRuntime confidenceOnlyReply shownPage).1 = .thrown ∧
    (displayResults natRuntime confidenceOnlyReply shownPage).2.confidenceWidth = "91%" ∧
    (displayResults natRuntime confidenceOnlyReply shownPage).2.confidenceWidth ≠ "50%" :=
  ⟨rfl, by decide, by decide, by decide⟩

/-! ## Reading the prediction block -/

theorem lexRun_append (lx : Lexer) (a b : List Char) :
    lexRun lx (a ++ b) = (lexRun lx a).bind (fun next => lexRun next b) := by
  induction a generalizing lx with
  | nil => rfl
  | cons c cs ih =>
    simp only [List.cons_append, lexRun]
    cases lexStep lx c with
    | none => rfl
    | some next => exact ih next

/-- Plain characters are gathered by the data state as they are. -/
theorem lexRun_plain (tokens : List Token) (run cs : List Char)
    (h : cs.all plainChar = true) :
    lexRun ⟨tokens, .data run⟩ cs = some ⟨tokens, .data (run ++ cs)⟩ := by
  induction cs generalizing run with
  | nil => simp [lexRun]
  | cons c cs ih =>
    simp only [List.all_cons, Bool.and_eq_true] at h
    have hc : c ≠ '<' := by
      intro hc
      rw [hc] at h
      exact absurd h.1 (by decide)
    simp only [lexRun, lexStep, if_neg hc, h.1, if_true]
    rw [ih _ h.2]
    simp

theorem flushText_data (tokens : List Token) (t : String) :
    flushText tokens t.data = tokens ++ (if t = "" then [] else [.text t]) := by
  obtain ⟨l⟩ := t
  cases l with
  | nil => simp [flushText]
  | cons c cs =>
    have hne : (⟨c :: cs⟩ : String) ≠ "" := by
      intro h
      have := congrArg String.data h
      simp at this
    simp [flushText, hne]

theorem lexRun_divClose (tokens : List Token) (run : List Char) :
    lexRun ⟨tokens, .data run⟩ "</div>".data =
      some ⟨flushText tokens run ++ [.endTag "div"], .data []⟩ := by
  rfl

theorem lexRun_headingOpen (tokens : List Token) (run : List Char) :
    lexRun ⟨tokens, .data run⟩ "<h2>".data =
      some ⟨flushText tokens run ++ [.startTag "h2" []], .data []⟩ := by
  rfl

theorem lexRun_headingClose (tokens : List Token) (run : List Char) :
    lexRun ⟨tokens, .data run⟩ "</h2>".data =
      some ⟨flushText tokens run ++ [.endTag "h2"], .data []⟩ := by
  rfl

theorem lexRun_text (tokens : List Token) (run plain rest : List Char)
    (h : plain.all plainChar = true) :
    lexRun ⟨tokens, .data run⟩ (plain ++ rest) = lexRun ⟨tokens, .data (run ++ plain)⟩ rest := by
  rw [lexRun_append, lexRun_plain tokens run plain h]
  rfl

/-- The tokens of the prediction block, for a badge class whose opening tag has
been read and for substitutions that are plain text. -/
theorem tokenize_block (cls upper detected heading : String)
    (hopen : lexRun ⟨[], .data []⟩
      ("\n                <div class=\"prediction-badge " ++ cls ++ "\">").data =
      some ⟨[.text "\n                ",
        .startTag "div" [("class", "prediction-badge " ++ cls)]], .data []⟩)
    (hu : plainText upper = true) (hd : plainText detected = true)
    (hh : plainText heading = true) :
    tokenize ("\n                <div class=\"prediction-badge " ++ cls ++ "\">" ++
      "\n                    " ++ upper ++ " " ++ detected ++
      "\n                </div>" ++
      "\n                <h2>" ++ heading ++ "</h2>" ++
      "\n            ") =
    some ([.text "\n                ",
        .startTag "div" [("class", "prediction-badge " ++ cls)],
        .text ("\n                    " ++ upper ++ " " ++ detected ++ "\n                "),
        .endTag "div",
        .text "\n                ",
        .startTag "h2" []] ++
      (if heading = "" then [] else [.text heading]) ++
      [.endTag "h2", .text "\n            "]) := by
  have hbody : (("\n                    " ++ upper ++ " " ++ detected ++
      "\n                ").data).all plainChar = true := by
    simp only [String.data_append, List.all_append, Bool.and_eq_true]
    exact ⟨⟨⟨⟨by decide, hu⟩, by decide⟩, hd⟩, by decide⟩
  have hsplit : ("\n                <div class=\"prediction-badge " ++ cls ++ "\">" ++
      "\n                    " ++ upper ++ " " ++ detected ++
      "\n                </div>" ++
      "\n                <h2>" ++ heading ++ "</h2>" ++
      "\n            ").data =
      ("\n                <div class=\"prediction-badge " ++ cls ++ "\">").data ++
      (("\n                    " ++ upper ++ " " ++ detected ++ "\n                ").data ++
      ("</div>".data ++ ("\n                ".data ++ ("<h2>".data ++
      (heading.data ++ ("</h2>".data ++ "\n            ".data)))))) := by
    rw [show "\n                </div>" = "\n                " ++ "</div>" from by decide,
      show "\n                <h2>" = "\n                " ++ "<h2>" from by decide]
    simp only [String.data_append, List.append_assoc]
  unfold tokenize
  rw [hsplit, lexRun_append, hopen]
  simp only [Option.some_bind]
  rw [lexRun_text _ _ _ _ hbody, lexRun_append, lexRun_divClose]
  simp only [Option.some_bind]
  rw [lexRun_text _ _ _ _ (by decide), lexRun_append, lexRun_headingOpen]
  simp only [Option.some_bind]
  rw [lexRun_text _ _ _ _ hh, lexRun_append, lexRun_headingClose]
  simp only [Option.some_bind]
  rw [lexRun_plain _ _ _ (by decide)]
  simp only [List.nil_append]
  have hne : "\n                    " ++ upper ++ " " ++ detected ++ "\n                " ≠
      "" := by
    intro h
    have hlen := congrArg String.length h
    simp only [String.length_append] at hlen
    have h0 : "\n                ".length = 17 := by decide
    have h1 : "".length = 0 := by decide
    omega
  have hgap : ∀ tokens : List Token, flushText tokens "\n                ".data =
      tokens ++ [.text "\n                "] := fun _ => rfl
  have hend : ∀ tokens : List Token, flushText tokens "\n            ".data =
      tokens ++ [.text "\n            "] := fun _ => rfl
  rw [hend, hgap, flushText_data _ heading, flushText_data, if_neg hne]
  simp

theorem wellFormed_confidence (rt : Runtime N) (data : JSVal N) (hw : wellFormed data = true) :
    ∃ c t, data.getProp "confidence" = some c ∧ c.toStr rt = some t := by
  unfold wellFormed at hw
  split at hw
  · next _ _ _ _ _ p c models e urls h1 h2 h3 h4 h5 =>
    simp only [Bool.and_eq_true, Bool.or_eq_true] at hw
    have hc := hw.1.1.1
    cases c with
    | num n => exact ⟨.num n, rt.numToString n, h2, by simp [JSVal.toStr]⟩
    | str t => exact ⟨.str t, t, h2, by simp [JSVal.toStr]⟩
    | _ => simp [JSVal.isNum, JSVal.isStr] at hc
  · cases hw

/-- C4, as the code has it.  For every well-formed response passed to
`displayResults` whose prediction, and its upper-case form, are plain text (no
`<`, no `&`, no NUL, no carriage return), the call completes and the markup it
assigns to the prediction block is read by the HTML tokenizer as a `div` of
class 'prediction-badge badge-normal' and an `h2` holding 'No Issues Found' when
the prediction is exactly 'normal', and as a `div` of class
'prediction-badge badge-disease' and an `h2` holding the prediction itself,
unchanged, for every other prediction. -/
theorem displayResults_prediction (rt : Runtime N) (data : JSVal N) (s : Page) (p : String)
    (hw : wellFormed data = true) (hp : data.getProp "prediction" = some (.str p))
    (hplain : plainText p = true) (hupper : plainText (rt.toUpperCase p) = true) :
    (displayResults rt data s).1 = .normal ∧
    (p = "normal" →
      tokenize (displayResults rt data s).2.predictionHTML =
        some [.text "\n                ",
          .startTag "div" [("class", "prediction-badge badge-normal")],
          .text ("\n                    " ++ rt.toUpperCase "normal" ++ " " ++
            "\n                "),
          .endTag "div",
          .text "\n                ",
          .startTag "h2" [],
          .text "No Issues Found",
          .endTag "h2",
          .text "\n            "]) ∧
    (p ≠ "normal" →
      tokenize (displayResults rt data s).2.predictionHTML =
        some ([.text "\n                ",
          .startTag "div" [("class", "prediction-badge badge-disease")],
          .text ("\n                    " ++ rt.toUpperCase p ++ " Detected" ++
            "\n                "),
          .endTag "div",
          .text "\n                ",
          .startTag "h2" []] ++
          (if p = "" then [] else [.text p]) ++
          [.endTag "h2", .text "\n            "])) := by
  obtain ⟨c, t, hc, ht⟩ := wellFormed_confidence rt data hw
  have h := (displayResults_start rt data c s p t hp hc ht).2.1
  refine ⟨displayResults_wellFormed rt data s hw, fun hn => ?_, fun hn => ?_⟩
  · rw [h]
    subst hn
    simp only [↓reduceIte]
    rw [tokenize_block "badge-normal" (rt.toUpperCase "normal") "" "No Issues Found"
      (by rfl) hupper (by decide) (by decide)]
    simp
  · rw [h]
    simp only [hn, ↓reduceIte]
    rw [tokenize_block "badge-disease" (rt.toUpperCase p) "Detected" p
      (by rfl) hupper (by decide) hplain]
    simp [String.append_assoc]

theorem displayResults_prediction_witness :
    wellFormed glaucomaReply = true ∧
    glaucomaReply.getProp "prediction" = some (.str "glaucoma") ∧
    plainText "glaucoma" = true ∧
    plainText (natRuntime.toUpperCase "glaucoma") = true ∧
    tokenize (displayResults natRuntime glaucomaReply octPage).2.predictionHTML =
      some ([.text "\n                ",
        .startTag "div" [("class", "prediction-badge badge-disease")],
        .text ("\n                    " ++ natRuntime.toUpperCase "glaucoma" ++ " Detected" ++
          "\n                "),
        .endTag "div",
        .text "\n                ",
        .startTag "h2" []] ++
        (if "glaucoma" = "" then [] else [.text "glaucoma"]) ++
        [.endTag "h2", .text "\n            "]) :=
  ⟨by decide, rfl, by decide, by decide,
    (displayResults_prediction natRuntime glaucomaReply octPage "glaucoma"
      (by decide) rfl (by decide) (by decide)).2.2 (by decide)⟩

/-- C4, as stated, fails.  The well-formed response whose prediction is
`<b>AMD</b>` is rendered to the end, but the markup assigned to the prediction
block is read as an `h2` that holds an element `b` with the text 'AMD': the
heading is not the prediction value unchanged, and no text of the block is. -/
theorem markup_prediction_not_heading :
    wellFormed boldReply = true ∧
    boldReply.getProp "prediction" = some (.str "<b>AMD</b>") ∧
    (displayResults natRuntime boldReply octPage).1 = .normal ∧
    tokenize (displayResults natRuntime boldReply octPage).2.predictionHTML =
      some [.text "\n                ",
        .startTag "div" [("class", "prediction-badge badge-disease")],
        .text "\n                    ",
        .startTag "b" [], .text "AMD", .endTag "b",
        .text " Detected\n                ",
        .endTag "div",
        .text "\n                ",
        .startTag "h2" [],
        .startTag "b" [], .text "AMD", .endTag "b",
        .endTag "h2",
        .text "\n            "] ∧
    tokenize (displayResults natRuntime boldReply octPage).2.predictionHTML ≠
      some [.text "\n                ",
        .startTag "div" [("class", "prediction-badge badge-disease")],
        .text "\n                    <B>AMD</B> Detected\n                ",
        .endTag "div",
        .text "\n                ",
        .startTag "h2" [],
        .text "<b>AMD</b>",
        .endTag "h2",
        .text "\n            "] :=
  ⟨by decide, rfl, by decide, by decide, by decide⟩

end ICare
